import Mathlib

/-!
Shallow embedding of `src/youtube_watcher.py`.

Python JSON values are modelled by an inductive `Json`; Python exceptions by
`PyErr`.  The two HTTP endpoints are modelled by an environment
`Env : Request → RawResponse` mapping each request (endpoint, query
parameters) to either a network failure, an unparseable body, or a parsed
JSON payload — this abstracts the composite of `requests.get` and
`json.loads` in `fetch_playlist_items_page` / `fetch_videos_page`.

The generator functions `fetch_playlist_items` and `fetch_videos` are
embedded as fuel-indexed functions returning the list of HTTP requests
made, the list of items yielded before completion or abort, and the final
outcome (normal exhaustion or a propagated exception).  Fuel exhaustion
models Python's recursion limit (`RecursionError`) for the unboundedly
recursive generators.
-/

namespace YoutubeWatcher

/-- A parsed JSON value, as produced by `json.loads`.  JSON `null` maps to
Python `None`, which is why `null` is a distinguished constructor. -/
inductive Json where
  | null
  | bool (b : Bool)
  | num (n : Int)
  | str (s : String)
  | arr (l : List Json)
  | obj (fields : List (String × Json))

mutual

def Json.decEq : (a b : Json) → Decidable (a = b)
  | .null, .null => isTrue rfl
  | .bool a, .bool b =>
    if h : a = b then isTrue (by rw [h]) else isFalse (fun hh => h (Json.bool.inj hh))
  | .num a, .num b =>
    if h : a = b then isTrue (by rw [h]) else isFalse (fun hh => h (Json.num.inj hh))
  | .str a, .str b =>
    if h : a = b then isTrue (by rw [h]) else isFalse (fun hh => h (Json.str.inj hh))
  | .arr a, .arr b =>
    match Json.decEqList a b with
    | isTrue h => isTrue (by rw [h])
    | isFalse h => isFalse (fun hh => h (Json.arr.inj hh))
  | .obj a, .obj b =>
    match Json.decEqFields a b with
    | isTrue h => isTrue (by rw [h])
    | isFalse h => isFalse (fun hh => h (Json.obj.inj hh))
  | .null, .bool _ => isFalse (fun h => Json.noConfusion h)
  | .null, .num _ => isFalse (fun h => Json.noConfusion h)
  | .null, .str _ => isFalse (fun h => Json.noConfusion h)
  | .null, .arr _ => isFalse (fun h => Json.noConfusion h)
  | .null, .obj _ => isFalse (fun h => Json.noConfusion h)
  | .bool _, .null => isFalse (fun h => Json.noConfusion h)
  | .bool _, .num _ => isFalse (fun h => Json.noConfusion h)
  | .bool _, .str _ => isFalse (fun h => Json.noConfusion h)
  | .bool _, .arr _ => isFalse (fun h => Json.noConfusion h)
  | .bool _, .obj _ => isFalse (fun h => Json.noConfusion h)
  | .num _, .null => isFalse (fun h => Json.noConfusion h)
  | .num _, .bool _ => isFalse (fun h => Json.noConfusion h)
  | .num _, .str _ => isFalse (fun h => Json.noConfusion h)
  | .num _, .arr _ => isFalse (fun h => Json.noConfusion h)
  | .num _, .obj _ => isFalse (fun h => Json.noConfusion h)
  | .str _, .null => isFalse (fun h => Json.noConfusion h)
  | .str _, .bool _ => isFalse (fun h => Json.noConfusion h)
  | .str _, .num _ => isFalse (fun h => Json.noConfusion h)
  | .str _, .arr _ => isFalse (fun h => Json.noConfusion h)
  | .str _, .obj _ => isFalse (fun h => Json.noConfusion h)
  | .arr _, .null => isFalse (fun h => Json.noConfusion h)
  | .arr _, .bool _ => isFalse (fun h => Json.noConfusion h)
  | .arr _, .num _ => isFalse (fun h => Json.noConfusion h)
  | .arr _, .str _ => isFalse (fun h => Json.noConfusion h)
  | .arr _, .obj _ => isFalse (fun h => Json.noConfusion h)
  | .obj _, .null => isFalse (fun h => Json.noConfusion h)
  | .obj _, .bool _ => isFalse (fun h => Json.noConfusion h)
  | .obj _, .num _ => isFalse (fun h => Json.noConfusion h)
  | .obj _, .str _ => isFalse (fun h => Json.noConfusion h)
  | .obj _, .arr _ => isFalse (fun h => Json.noConfusion h)

def Json.decEqList : (a b : List Json) → Decidable (a = b)
  | [], [] => isTrue rfl
  | [], _ :: _ => isFalse (fun h => List.noConfusion h)
  | _ :: _, [] => isFalse (fun h => List.noConfusion h)
  | x :: xs, y :: ys =>
    match Json.decEq x y with
    | isFalse h => isFalse (fun hh => h (List.cons.inj hh).1)
    | isTrue h1 =>
      match Json.decEqList xs ys with
      | isTrue h2 => isTrue (by rw [h1, h2])
      | isFalse h => isFalse (fun hh => h (List.cons.inj hh).2)

def Json.decEqFields : (a b : List (String × Json)) → Decidable (a = b)
  | [], [] => isTrue rfl
  | [], _ :: _ => isFalse (fun h => List.noConfusion h)
  | _ :: _, [] => isFalse (fun h => List.noConfusion h)
  | (s, x) :: xs, (t, y) :: ys =>
    if hs : s = t then
      match Json.decEq x y with
      | isFalse h =>
        isFalse (fun hh => h (congrArg Prod.snd (List.cons.inj hh).1))
      | isTrue h1 =>
        match Json.decEqFields xs ys with
        | isTrue h2 => isTrue (by rw [hs, h1, h2])
        | isFalse h => isFalse (fun hh => h (List.cons.inj hh).2)
    else
      isFalse (fun hh => hs (congrArg Prod.fst (List.cons.inj hh).1))

end

instance : DecidableEq Json := Json.decEq

/-- The Python exceptions the script can raise, plus `recursionError` for
exhaustion of the interpreter's recursion limit by the self-recursive
generators. -/
inductive PyErr where
  | transportError
  | jsonDecodeError
  | keyError (k : String)
  | typeError
  | valueError
  | attributeError
  | recursionError
deriving DecidableEq

/-- The spec's `MalformedResponseError` taxonomy class: an unparseable body
(`json.JSONDecodeError`) or a structurally invalid payload (a `KeyError`
on a required field). -/
def isMalformedResponseError : PyErr → Bool
  | .jsonDecodeError => true
  | .keyError _ => true
  | _ => false

/-- One HTTP GET request: the endpoint together with the query parameters
the script sends.  `pageToken = none` models the `pageToken` parameter
being `None`/absent.  The identifier parameters are `Json` because
`fetch_videos` forwards a value extracted from a JSON payload (and, on the
continuation path, passes it to `fetch_playlist_items` as the playlist
identifier). -/
inductive Request where
  | playlistItems (key : String) (playlistId : Json) (pageToken : Option Json)
  | videos (key : String) (videoId : Json) (pageToken : Option Json)
deriving DecidableEq

/-- Outcome of one HTTP call followed by `json.loads`: the network call
raises, or the body is not valid JSON, or it parses to a `Json` value. -/
inductive RawResponse where
  | netFail
  | nonJson
  | json (j : Json)

/-- The external world: what each request returns.  Fixed for a run, which
models the mocked page-response mapping of the testable properties. -/
def Env : Type := Request → RawResponse

/-- First binding of a key in a JSON object's field list. -/
def lookupField (fields : List (String × Json)) (k : String) : Option Json :=
  (fields.find? (fun p => p.1 = k)).map (fun p => p.2)

/-- Python subscription `j[k]` with a string key: a `KeyError` on a dict
without the key, a `TypeError` on any non-dict value. -/
def pyIndex (j : Json) (k : String) : Except PyErr Json :=
  match j with
  | .obj fields =>
    match lookupField fields k with
    | some v => .ok v
    | none => .error (.keyError k)
  | _ => .error .typeError

/-- Python `j.get(k)`: `None` when the key is absent or bound to JSON
`null` (which parses to Python `None`); an `AttributeError` on a
non-dict. -/
def pyGetOpt (j : Json) (k : String) : Except PyErr (Option Json) :=
  match j with
  | .obj fields =>
    match lookupField fields k with
    | some .null => .ok none
    | some v => .ok (some v)
    | none => .ok none
  | _ => .error .attributeError

/-- Python iteration `yield from v`: a list yields its elements, a string
yields its one-character substrings, a dict yields its keys, everything
else raises `TypeError`. -/
def pyIter (j : Json) : Except PyErr (List Json) :=
  match j with
  | .arr l => .ok l
  | .str s => .ok (s.toList.map (fun c => Json.str (String.mk [c])))
  | .obj fields => .ok (fields.map (fun p => Json.str p.1))
  | _ => .error .typeError

/-- Value of a non-empty run of decimal digits, most significant first;
`none` as soon as a non-digit appears. -/
def digitsValAux : List Char → Nat → Option Nat
  | [], acc => some acc
  | c :: cs, acc =>
    if 48 ≤ c.toNat ∧ c.toNat ≤ 57 then
      digitsValAux cs (10 * acc + (c.toNat - 48))
    else
      none

/-- Value of a non-empty all-digit character list. -/
def digitsVal : List Char → Option Nat
  | [] => none
  | cs => digitsValAux cs 0

/-- Python `int(s)` on a string: an optional sign followed by at least one
decimal digit; anything else raises `ValueError`. -/
def pyStrToInt (s : String) : Option Int :=
  match s.toList with
  | '-' :: cs => (digitsVal cs).map (fun n => -(n : Int))
  | '+' :: cs => (digitsVal cs).map (fun n => (n : Int))
  | cs => (digitsVal cs).map (fun n => (n : Int))

/-- Python `int(v)` on a value taken from a JSON payload: numbers pass
through, booleans coerce, strings are parsed (or `ValueError`), `None`
and containers raise `TypeError`. -/
def pyInt (j : Json) : Except PyErr Int :=
  match j with
  | .num n => .ok n
  | .bool b => .ok (if b then 1 else 0)
  | .str s =>
    match pyStrToInt s with
    | some n => .ok n
    | none => .error .valueError
  | _ => .error .typeError

instance {ε α : Type} [DecidableEq ε] [DecidableEq α] :
    DecidableEq (Except ε α) := fun a b =>
  match a, b with
  | .ok x, .ok y =>
    if h : x = y then isTrue (by rw [h]) else isFalse (fun hh => h (Except.ok.inj hh))
  | .error x, .error y =>
    if h : x = y then isTrue (by rw [h]) else isFalse (fun hh => h (Except.error.inj hh))
  | .ok _, .error _ => isFalse (fun h => Except.noConfusion h)
  | .error _, .ok _ => isFalse (fun h => Except.noConfusion h)

/-- Result of running one of the generator functions to exhaustion (or to
its first uncaught exception): the HTTP requests issued, the items
yielded before the end, and the outcome. -/
structure GenResult where
  trace : List Request
  items : List Json
  outcome : Except PyErr Unit
deriving DecidableEq

/-- `fetch_playlist_items(google_api_key, youtube_playlist_id, page_token)`:
fetch one page via the playlist-items endpoint, yield `payload["items"]`,
then recurse on `payload.get("nextPageToken")` when it is not `None`. -/
def fetch_playlist_items (env : Env) (google_api_key : String)
    (youtube_playlist_id : Json) : Nat → Option Json → GenResult
  | 0, _ => ⟨[], [], .error .recursionError⟩
  | fuel+1, page_token =>
    let req := Request.playlistItems google_api_key youtube_playlist_id page_token
    match env req with
    | .netFail => ⟨[req], [], .error .transportError⟩
    | .nonJson => ⟨[req], [], .error .jsonDecodeError⟩
    | .json payload =>
      match pyIndex payload "items" with
      | .error e => ⟨[req], [], .error e⟩
      | .ok itemsVal =>
        match pyIter itemsVal with
        | .error e => ⟨[req], [], .error e⟩
        | .ok pageItems =>
          match pyGetOpt payload "nextPageToken" with
          | .error e => ⟨[req], pageItems, .error e⟩
          | .ok none => ⟨[req], pageItems, .ok ()⟩
          | .ok (some t) =>
            let rest :=
              fetch_playlist_items env google_api_key youtube_playlist_id fuel (some t)
            ⟨req :: rest.trace, pageItems ++ rest.items, rest.outcome⟩

/-- `fetch_videos(google_api_key, video_id, page_token)`:
fetch one page via the videos endpoint, yield `payload["items"]`, then on
`payload.get("nextPageToken")` recurse into `fetch_playlist_items` with the
video identifier in playlist-identifier position — exactly as written on
line 66 of the source. -/
def fetch_videos (env : Env) (google_api_key : String)
    (video_id : Json) : Nat → Option Json → GenResult
  | 0, _ => ⟨[], [], .error .recursionError⟩
  | fuel+1, page_token =>
    let req := Request.videos google_api_key video_id page_token
    match env req with
    | .netFail => ⟨[req], [], .error .transportError⟩
    | .nonJson => ⟨[req], [], .error .jsonDecodeError⟩
    | .json payload =>
      match pyIndex payload "items" with
      | .error e => ⟨[req], [], .error e⟩
      | .ok itemsVal =>
        match pyIter itemsVal with
        | .error e => ⟨[req], [], .error e⟩
        | .ok pageItems =>
          match pyGetOpt payload "nextPageToken" with
          | .error e => ⟨[req], pageItems, .error e⟩
          | .ok none => ⟨[req], pageItems, .ok ()⟩
          | .ok (some t) =>
            let rest :=
              fetch_playlist_items env google_api_key video_id fuel (some t)
            ⟨req :: rest.trace, pageItems ++ rest.items, rest.outcome⟩

/-- `video["snippet"]["title"]`. -/
def pyTitle (video : Json) : Except PyErr Json :=
  match pyIndex video "snippet" with
  | .error e => .error e
  | .ok snip => pyIndex snip "title"

/-- `int(video["statistics"].get(field, 0))`: index `statistics`, then
`dict.get` with default `0` (the default is only used when the key is
absent; a present JSON `null` reaches `int` and raises `TypeError`). -/
def pyStat (video : Json) (field : String) : Except PyErr Int :=
  match pyIndex video "statistics" with
  | .error e => .error e
  | .ok stats =>
    match stats with
    | .obj fields =>
      match lookupField fields field with
      | none => .ok 0
      | some v => pyInt v
    | _ => .error .attributeError

/-- The summary dict built by `summarise_video`. -/
structure Summary where
  video_id : Json
  title : Json
  views : Int
  likes : Int
  comments : Int
deriving DecidableEq

/-- `summarise_video(video)`: the dict literal's values evaluated in source
order — `video["id"]`, `video["snippet"]["title"]`, then the three
statistics with default `0`. -/
def summarise_video (video : Json) : Except PyErr Summary :=
  match pyIndex video "id" with
  | .error e => .error e
  | .ok vid =>
    match pyTitle video with
    | .error e => .error e
    | .ok title =>
      match pyStat video "viewCount" with
      | .error e => .error e
      | .ok views =>
        match pyStat video "likeCount" with
        | .error e => .error e
        | .ok likes =>
          match pyStat video "commentCount" with
          | .error e => .error e
          | .ok comments => .ok ⟨vid, title, views, likes, comments⟩

/-- The value dict built inline in `main`'s `producer.produce` call. -/
structure ProducedValue where
  TITLE : Json
  VIEWS : Int
  LIKES : Int
  COMMENTS : Int
deriving DecidableEq

/-- The inline `value={...}` construction of `main` (lines 134-140),
evaluated in source order. -/
def produce_value (video : Json) : Except PyErr ProducedValue :=
  match pyTitle video with
  | .error e => .error e
  | .ok title =>
    match pyStat video "viewCount" with
    | .error e => .error e
    | .ok views =>
      match pyStat video "likeCount" with
      | .error e => .error e
      | .ok likes =>
        match pyStat video "commentCount" with
        | .error e => .error e
        | .ok comments => .ok ⟨title, views, likes, comments⟩

/-- `on_delivery(err, record)`: the delivery callback — empty body, returns
`None`, raises nothing (its type is total, not `Except`). -/
def on_delivery (_err : Option PyErr) (_record : Json × ProducedValue) : Unit := ()

/-- The transport invoking the delivery callback once per enqueued record
with that record's delivery outcome. -/
def deliver_each (outcomes : List (Option PyErr))
    (records : List (Json × ProducedValue)) : Unit :=
  (List.zip outcomes records).foldl (fun _ p => on_delivery p.1 p.2) ()

/-- The body of `main`'s inner `for video in fetch_videos(...)` loop for one
video: `summarise_video` is evaluated first (for the log line), then the
produce value; on success the record `(video_id, value)` is enqueued. -/
def process_video (video_id : Json) (video : Json) :
    Except PyErr (Json × ProducedValue) :=
  match summarise_video video with
  | .error _e => .error _e
  | .ok _s =>
    match produce_value video with
    | .error e => .error e
    | .ok v => .ok (video_id, v)

/-- Run the inner loop body over the videos the generator yielded, in
order, keeping the records enqueued before a failure. -/
def process_video_list (video_id : Json) :
    List Json → List (Json × ProducedValue) × Except PyErr Unit
  | [] => ([], .ok ())
  | video :: rest =>
    match process_video video_id video with
    | .error e => ([], .error e)
    | .ok r =>
      let tail := process_video_list video_id rest
      (r :: tail.1, tail.2)

/-- One iteration of `main`'s outer loop: extract
`video_item["contentDetails"]["videoId"]`, run `fetch_videos` for it, and
process every yielded video; the generator's own failure surfaces only
after the yielded videos were processed. -/
def process_item (env : Env) (fuel : Nat) (google_api_key : String)
    (video_item : Json) : List (Json × ProducedValue) × Except PyErr Unit :=
  match pyIndex video_item "contentDetails" with
  | .error e => ([], .error e)
  | .ok cd =>
    match pyIndex cd "videoId" with
    | .error e => ([], .error e)
    | .ok video_id =>
      let g := fetch_videos env google_api_key video_id fuel none
      let done := process_video_list video_id g.items
      (done.1,
        match done.2 with
        | .error e => .error e
        | .ok _ => g.outcome)

/-- `main`'s outer loop over the playlist items, accumulating the enqueued
records and stopping at the first uncaught exception. -/
def process_items (env : Env) (fuel : Nat) (google_api_key : String) :
    List Json → List (Json × ProducedValue) × Except PyErr Unit
  | [] => ([], .ok ())
  | item :: rest =>
    let r := process_item env fuel google_api_key item
    match r.2 with
    | .error e => (r.1, .error e)
    | .ok _ =>
      let r2 := process_items env fuel google_api_key rest
      (r.1 ++ r2.1, r2.2)

/-- Result of one run of `main`: the records enqueued via
`producer.produce`, whether `producer.flush()` was reached, and the
outcome. -/
structure RunResult where
  published : List (Json × ProducedValue)
  flushed : Bool
  outcome : Except PyErr Unit
deriving DecidableEq

/-- `main()`: walk the playlist generator, process each playlist item, and
flush at the end; any uncaught exception aborts the run before the flush.
The playlist generator's own failure surfaces only after the items it had
already yielded were processed. -/
def main (env : Env) (fuel : Nat) (google_api_key : String)
    (youtube_playlist_id : Json) : RunResult :=
  let g := fetch_playlist_items env google_api_key youtube_playlist_id fuel none
  let done := process_items env fuel google_api_key g.items
  let outcome : Except PyErr Unit :=
    match done.2 with
    | .error e => .error e
    | .ok _ => g.outcome
  ⟨done.1, match outcome with | .ok _ => true | .error _ => false, outcome⟩

/-! ### Helper lemmas -/

/-- Destructuring a successful `summarise_video`: each field of the summary
is the result of the corresponding field access on the video payload. -/
lemma summarise_video_ok_fields {video : Json} {s : Summary}
    (h : summarise_video video = .ok s) :
    pyIndex video "id" = .ok s.video_id ∧
    pyTitle video = .ok s.title ∧
    pyStat video "viewCount" = .ok s.views ∧
    pyStat video "likeCount" = .ok s.likes ∧
    pyStat video "commentCount" = .ok s.comments := by
  unfold summarise_video at h
  split at h <;> try exact Except.noConfusion h
  next vid h1 =>
  split at h <;> try exact Except.noConfusion h
  next title h2 =>
  split at h <;> try exact Except.noConfusion h
  next views h3 =>
  split at h <;> try exact Except.noConfusion h
  next likes h4 =>
  split at h <;> try exact Except.noConfusion h
  next comments h5 =>
  injection h with hh
  subst hh
  exact ⟨h1, h2, h3, h4, h5⟩

/-- Destructuring a successful `produce_value`: each field of the produced
value is the result of the corresponding field access on the video
payload. -/
lemma produce_value_ok_fields {video : Json} {pv : ProducedValue}
    (h : produce_value video = .ok pv) :
    pyTitle video = .ok pv.TITLE ∧
    pyStat video "viewCount" = .ok pv.VIEWS ∧
    pyStat video "likeCount" = .ok pv.LIKES ∧
    pyStat video "commentCount" = .ok pv.COMMENTS := by
  unfold produce_value at h
  split at h <;> try exact Except.noConfusion h
  next title h1 =>
  split at h <;> try exact Except.noConfusion h
  next views h2 =>
  split at h <;> try exact Except.noConfusion h
  next likes h3 =>
  split at h <;> try exact Except.noConfusion h
  next comments h4 =>
  injection h with hh
  subst hh
  exact ⟨h1, h2, h3, h4⟩

/-- A statistics field absent from the statistics dict yields the default
`0`. -/
lemma pyStat_missing_eq_zero {video : Json} {fs : List (String × Json)}
    {field : String}
    (hstats : pyIndex video "statistics" = .ok (.obj fs))
    (hmiss : lookupField fs field = none) :
    pyStat video field = .ok 0 := by
  simp [pyStat, hstats, hmiss]

/-- The first request a playlist walk issues carries exactly the cursor it
was started with. -/
lemma fetch_playlist_items_trace_head (env : Env) (k : String) (pid : Json)
    (fuel : Nat) (tok : Option Json) :
    (fetch_playlist_items env k pid (fuel + 1) tok).trace.head? =
      some (.playlistItems k pid tok) := by
  simp only [fetch_playlist_items]
  repeat' split
  all_goals rfl

/-- A successfully processed video is enqueued under exactly the
`video_id` extracted from the playlist item. -/
lemma process_video_ok_key {vid video : Json} {r : Json × ProducedValue}
    (h : process_video vid video = .ok r) : r.1 = vid := by
  unfold process_video at h
  split at h <;> try exact Except.noConfusion h
  split at h <;> try exact Except.noConfusion h
  injection h with hh
  subst hh
  rfl

/-- Every record enqueued by the inner loop over one playlist item's
videos is keyed by that playlist item's `video_id`. -/
lemma process_video_list_mem_key {vid : Json} {l : List Json}
    {p : Json × ProducedValue}
    (h : p ∈ (process_video_list vid l).1) : p.1 = vid := by
  induction l with
  | nil => simp [process_video_list] at h
  | cons video rest ih =>
    unfold process_video_list at h
    rcases hv : process_video vid video with e | r <;> rw [hv] at h
    · simp at h
    · rcases List.mem_cons.mp h with rfl | hmem
      · exact process_video_ok_key hv
      · exact ih hmem

/-- Every record enqueued while processing one playlist item is keyed by
the `contentDetails.videoId` extracted from that item. -/
lemma process_item_mem_key {env : Env} {fuel : Nat} {k : String}
    {item : Json} {p : Json × ProducedValue}
    (h : p ∈ (process_item env fuel k item).1) :
    ∃ cd, pyIndex item "contentDetails" = .ok cd ∧
      pyIndex cd "videoId" = .ok p.1 := by
  unfold process_item at h
  rcases h1 : pyIndex item "contentDetails" with e | cd <;> simp only [h1] at h
  · simp at h
  · rcases h2 : pyIndex cd "videoId" with e | vid <;> simp only [h2] at h
    · simp at h
    · refine ⟨cd, rfl, ?_⟩
      rw [process_video_list_mem_key h]
      exact h2

/-- Every record enqueued by the outer loop comes from some playlist item
in the processed list, keyed by that item's `contentDetails.videoId`. -/
lemma process_items_mem_key {env : Env} {fuel : Nat} {k : String}
    {l : List Json} {p : Json × ProducedValue}
    (h : p ∈ (process_items env fuel k l).1) :
    ∃ item ∈ l, ∃ cd, pyIndex item "contentDetails" = .ok cd ∧
      pyIndex cd "videoId" = .ok p.1 := by
  induction l with
  | nil => simp [process_items] at h
  | cons item rest ih =>
    unfold process_items at h
    rcases hr : (process_item env fuel k item).2 with e | u <;> simp only [hr] at h
    · obtain ⟨cd, hcd, hvid⟩ := process_item_mem_key h
      exact ⟨item, List.mem_cons_self _ _, cd, hcd, hvid⟩
    · rcases List.mem_append.mp h with hmem | hmem
      · obtain ⟨cd, hcd, hvid⟩ := process_item_mem_key hmem
        exact ⟨item, List.mem_cons_self _ _, cd, hcd, hvid⟩
      · obtain ⟨item2, hitem2, cd, hcd, hvid⟩ := ih hmem
        exact ⟨item2, List.mem_cons_of_mem _ hitem2, cd, hcd, hvid⟩

/-! ### Concrete scenario environments -/

/-- The detail record of the single-video scenario:
`{id:"a", snippet:{title:"T"}, statistics:{viewCount:"5"}}`. -/
def vjson : Json :=
  .obj [("id", .str "a"),
        ("snippet", .obj [("title", .str "T")]),
        ("statistics", .obj [("viewCount", .str "5")])]

/-- Single-page playlist `[{videoId:"a"}]` with no continuation; the detail
endpoint returns `vjson` for `"a"` with no continuation. -/
def envC3 : Env
  | .playlistItems "k" (.str "PL") none =>
    .json (.obj [("items",
      .arr [.obj [("contentDetails", .obj [("videoId", .str "a")])]])])
  | .videos "k" (.str "a") none => .json (.obj [("items", .arr [vjson])])
  | _ => .netFail

/-- A two-page playlist: page 1 has one item and cursor `"X"`, page 2
(under cursor `"X"`) has one item and no cursor. -/
def envTwoPages : Env
  | .playlistItems "k" (.str "PL") none =>
    .json (.obj [("items", .arr [.str "i1"]), ("nextPageToken", .str "X")])
  | .playlistItems "k" (.str "PL") (some (.str "X")) =>
    .json (.obj [("items", .arr [.str "i2"])])
  | _ => .netFail

/-- A playlist item yielded by the playlist-items endpoint when it is
(wrongly) consulted while following a video-detail continuation. -/
def plExtra : Json := .obj [("contentDetails", .obj [("videoId", .str "zzz")])]

/-- The video-detail endpoint returns a page for `"a"` that carries a
continuation cursor `"X"`; the playlist-items endpoint — not the
video-detail endpoint — has a page for identifier `"a"` under cursor
`"X"`.  The video-detail endpoint itself has no page under cursor `"X"`
(any such request fails), so a detail-paginating walk would abort. -/
def envBug : Env
  | .videos "k" (.str "a") none =>
    .json (.obj [("items", .arr [vjson]), ("nextPageToken", .str "X")])
  | .playlistItems "k" (.str "a") (some (.str "X")) =>
    .json (.obj [("items", .arr [plExtra])])
  | _ => .netFail

/-- A detail record whose `id` (`"b"`) differs from the identifier it was
looked up under. -/
def vOther : Json :=
  .obj [("id", .str "b"),
        ("snippet", .obj [("title", .str "T")]),
        ("statistics", .obj [])]

/-- The playlist references videoId `""` (empty), and the detail endpoint
answers that lookup with an entity whose own id is `"b"`. -/
def envKeyMismatch : Env
  | .playlistItems "k" (.str "PL") none =>
    .json (.obj [("items",
      .arr [.obj [("contentDetails", .obj [("videoId", .str "")])]])])
  | .videos "k" (.str "") none => .json (.obj [("items", .arr [vOther])])
  | _ => .netFail

/-- A video payload with an empty statistics object. -/
def vNoStats : Json :=
  .obj [("id", .str "a"),
        ("snippet", .obj [("title", .str "T")]),
        ("statistics", .obj [])]

/-- Every request fails at the network level. -/
def envDown : Env := fun _ => .netFail

/-- Every request returns a body that is not valid JSON. -/
def envNonJson : Env := fun _ => .nonJson

/-! ### Claim theorems -/

/-- C1, code evaluation at the failing input: on a video-detail page for
identifier `"a"` carrying continuation cursor `"X"`, the next request
`fetch_videos` makes goes to the playlist-items endpoint (with `"a"` in
playlist-identifier position and cursor `"X"`), not the video-detail
endpoint, and the playlist items fetched there are yielded as if they
were video entities. -/
theorem fetch_videos_bug_at_failing_input :
    (fetch_videos envBug "k" (.str "a") 2 none).trace =
      [.videos "k" (.str "a") none,
       .playlistItems "k" (.str "a") (some (.str "X"))] ∧
    (fetch_videos envBug "k" (.str "a") 2 none).items = [vjson, plExtra] ∧
    (fetch_videos envBug "k" (.str "a") 2 none).outcome = .ok () := by
  decide

/-- C2: when a fetched playlist page parses, yields its items and has no
`nextPageToken`, iteration terminates right after those items with no
further fetch (the trace is exactly the one request); when it has a
`nextPageToken`, iteration yields the page's items and then continues
with a fetch whose cursor is exactly that token. -/
theorem fetch_playlist_items_pagination
    (env : Env) (k : String) (pid : Json) (tok : Option Json) (fuel : Nat)
    (payload itemsVal : Json) (pageItems : List Json)
    (henv : env (.playlistItems k pid tok) = .json payload)
    (hitems : pyIndex payload "items" = .ok itemsVal)
    (hiter : pyIter itemsVal = .ok pageItems) :
    (pyGetOpt payload "nextPageToken" = .ok none →
      fetch_playlist_items env k pid (fuel + 1) tok =
        ⟨[.playlistItems k pid tok], pageItems, .ok ()⟩) ∧
    (∀ t, pyGetOpt payload "nextPageToken" = .ok (some t) →
      fetch_playlist_items env k pid (fuel + 2) tok =
        ⟨.playlistItems k pid tok ::
            (fetch_playlist_items env k pid (fuel + 1) (some t)).trace,
          pageItems ++ (fetch_playlist_items env k pid (fuel + 1) (some t)).items,
          (fetch_playlist_items env k pid (fuel + 1) (some t)).outcome⟩ ∧
      (fetch_playlist_items env k pid (fuel + 1) (some t)).trace.head? =
        some (.playlistItems k pid (some t))) := by
  constructor
  · intro hnone
    simp only [fetch_playlist_items, henv, hitems, hiter, hnone]
  · intro t ht
    refine ⟨?_, fetch_playlist_items_trace_head env k pid fuel (some t)⟩
    show fetch_playlist_items env k pid (fuel + 1 + 1) tok = _
    simp only [fetch_playlist_items, henv, hitems, hiter, ht]

/-- C2 witness: the two-page scenario, where page 1 carries cursor `"X"`
and the follow-up fetch uses exactly that cursor. -/
theorem fetch_playlist_items_pagination_witness :
    fetch_playlist_items envTwoPages "k" (.str "PL") (0 + 2) none =
      ⟨.playlistItems "k" (.str "PL") none ::
          (fetch_playlist_items envTwoPages "k" (.str "PL") (0 + 1)
            (some (.str "X"))).trace,
        [.str "i1"] ++
          (fetch_playlist_items envTwoPages "k" (.str "PL") (0 + 1)
            (some (.str "X"))).items,
        (fetch_playlist_items envTwoPages "k" (.str "PL") (0 + 1)
          (some (.str "X"))).outcome⟩ ∧
    (fetch_playlist_items envTwoPages "k" (.str "PL") (0 + 1)
        (some (.str "X"))).trace.head? =
      some (.playlistItems "k" (.str "PL") (some (.str "X"))) :=
  (fetch_playlist_items_pagination envTwoPages "k" (.str "PL") none 0
      (.obj [("items", .arr [.str "i1"]), ("nextPageToken", .str "X")])
      (.arr [.str "i1"]) [.str "i1"] rfl rfl rfl).2 (.str "X") rfl

/-- C3: with the single-page playlist `[{videoId:"a"}]` and the single
detail record `{id:"a", snippet:{title:"T"}, statistics:{viewCount:"5"}}`,
the run makes exactly one publish call, keyed `"a"`, with value
`{TITLE:"T", VIEWS:5, LIKES:0, COMMENTS:0}`, and flushes. -/
theorem single_video_scenario :
    main envC3 4 "k" (.str "PL") =
      ⟨[(.str "a", ⟨.str "T", 5, 0, 0⟩)], true, .ok ()⟩ := by
  decide

/-- C8: two independent walks of the same collection over the same fixed
page-response mapping yield identical item sequences (and the same
requests and outcome). -/
theorem fetch_playlist_items_deterministic
    (env : Env) (k : String) (pid : Json) (fuel : Nat) (r1 r2 : GenResult)
    (h1 : r1 = fetch_playlist_items env k pid fuel none)
    (h2 : r2 = fetch_playlist_items env k pid fuel none) :
    r1.items = r2.items ∧ r1.trace = r2.trace ∧ r1.outcome = r2.outcome := by
  subst h1
  subst h2
  exact ⟨rfl, rfl, rfl⟩

/-- C8 witness: two runs over the two-page mock mapping agree. -/
theorem fetch_playlist_items_deterministic_witness :
    (fetch_playlist_items envTwoPages "k" (.str "PL") 2 none).items =
      (fetch_playlist_items envTwoPages "k" (.str "PL") 2 none).items ∧
    (fetch_playlist_items envTwoPages "k" (.str "PL") 2 none).trace =
      (fetch_playlist_items envTwoPages "k" (.str "PL") 2 none).trace ∧
    (fetch_playlist_items envTwoPages "k" (.str "PL") 2 none).outcome =
      (fetch_playlist_items envTwoPages "k" (.str "PL") 2 none).outcome :=
  fetch_playlist_items_deterministic envTwoPages "k" (.str "PL") 2 _ _ rfl rfl

/-- C4: when the video's statistics object lacks `viewCount`, `likeCount`
or `commentCount`, both the summary record and the published value carry
`0` in the corresponding field — the fields are integers, so they are
never null or missing. -/
theorem missing_statistics_default_to_zero
    (video : Json) (fs : List (String × Json)) (s : Summary)
    (pv : ProducedValue)
    (hs : summarise_video video = .ok s)
    (hpv : produce_value video = .ok pv)
    (hstats : pyIndex video "statistics" = .ok (.obj fs)) :
    (lookupField fs "viewCount" = none → s.views = 0 ∧ pv.VIEWS = 0) ∧
    (lookupField fs "likeCount" = none → s.likes = 0 ∧ pv.LIKES = 0) ∧
    (lookupField fs "commentCount" = none → s.comments = 0 ∧ pv.COMMENTS = 0) := by
  obtain ⟨-, -, hv, hl, hc⟩ := summarise_video_ok_fields hs
  obtain ⟨-, hv2, hl2, hc2⟩ := produce_value_ok_fields hpv
  refine ⟨fun hm => ?_, fun hm => ?_, fun hm => ?_⟩
  · have h0 := pyStat_missing_eq_zero hstats hm
    exact ⟨Except.ok.inj (hv.symm.trans h0), Except.ok.inj (hv2.symm.trans h0)⟩
  · have h0 := pyStat_missing_eq_zero hstats hm
    exact ⟨Except.ok.inj (hl.symm.trans h0), Except.ok.inj (hl2.symm.trans h0)⟩
  · have h0 := pyStat_missing_eq_zero hstats hm
    exact ⟨Except.ok.inj (hc.symm.trans h0), Except.ok.inj (hc2.symm.trans h0)⟩

/-- C4 witness: a video with an empty statistics object summarises with
views 0 and publishes with VIEWS 0. -/
theorem missing_statistics_default_to_zero_witness :
    (Summary.mk (.str "a") (.str "T") 0 0 0).views = 0 ∧
    (ProducedValue.mk (.str "T") 0 0 0).VIEWS = 0 :=
  (missing_statistics_default_to_zero vNoStats []
    ⟨.str "a", .str "T", 0, 0, 0⟩ ⟨.str "T", 0, 0, 0⟩ rfl rfl rfl).1 rfl

/-- C5 counterexample: the playlist references videoId `""` and the detail
endpoint returns an entity whose own id is `"b"`; the run publishes the
entity's summary under key `""`, which is empty and differs from the
entity's identifier `"b"` — refuting both the key-equals-entity-id and
the non-emptiness parts of the claim. -/
theorem published_key_mismatch_counterexample :
    (main envKeyMismatch 4 "k" (.str "PL")).published =
      [(.str "", ⟨.str "T", 0, 0, 0⟩)] ∧
    (fetch_videos envKeyMismatch "k" (.str "") 4 none).items = [vOther] ∧
    pyIndex vOther "id" = .ok (.str "b") ∧
    Json.str "" ≠ Json.str "b" := by
  decide

/-- C5 amended: every published record's key is, verbatim, the
`contentDetails.videoId` of the playlist item under which the entity was
fetched (the code never compares it with the entity's own `id` field and
never checks it for emptiness). -/
theorem published_key_is_playlist_videoId
    (env : Env) (fuel : Nat) (k : String) (pid : Json)
    (p : Json × ProducedValue)
    (hp : p ∈ (main env fuel k pid).published) :
    ∃ item ∈ (fetch_playlist_items env k pid fuel none).items,
      ∃ cd, pyIndex item "contentDetails" = .ok cd ∧
        pyIndex cd "videoId" = .ok p.1 := by
  simp only [main] at hp
  exact process_items_mem_key hp

/-- C5 amended witness: in the single-video scenario the published key
`"a"` is the playlist item's videoId. -/
theorem published_key_is_playlist_videoId_witness :
    ∃ item ∈ (fetch_playlist_items envC3 "k" (.str "PL") 4 none).items,
      ∃ cd, pyIndex item "contentDetails" = .ok cd ∧
        pyIndex cd "videoId" = .ok (Json.str "a") :=
  published_key_is_playlist_videoId envC3 4 "k" (.str "PL")
    (.str "a", ⟨.str "T", 5, 0, 0⟩) (by decide)

/-- C6: if the first playlist fetch fails at the network level, has an
unparseable body, or parses to a payload without a usable `items` field,
the run aborts with that error before any publish call and the flush is
never reached (zero records enqueued). -/
theorem first_response_failure_aborts
    (env : Env) (fuel : Nat) (k : String) (pid : Json) :
    (env (.playlistItems k pid none) = .netFail →
      main env (fuel + 1) k pid = ⟨[], false, .error .transportError⟩) ∧
    (env (.playlistItems k pid none) = .nonJson →
      main env (fuel + 1) k pid = ⟨[], false, .error .jsonDecodeError⟩) ∧
    (∀ payload e, env (.playlistItems k pid none) = .json payload →
      pyIndex payload "items" = .error e →
      main env (fuel + 1) k pid = ⟨[], false, .error e⟩) := by
  refine ⟨fun h => ?_, fun h => ?_, fun payload e h hpi => ?_⟩
  · simp only [main, fetch_playlist_items, process_items, h]
  · simp only [main, fetch_playlist_items, process_items, h]
  · simp only [main, fetch_playlist_items, process_items, h, hpi]

/-- C6 witness: with the network down, the run publishes nothing, does not
flush, and surfaces the transport error. -/
theorem first_response_failure_aborts_witness :
    main envDown (3 + 1) "k" (.str "PL") =
      ⟨[], false, .error .transportError⟩ :=
  (first_response_failure_aborts envDown 3 "k" (.str "PL")).1 rfl

/-- C7: a page fetch whose body is not JSON fails with the
`MalformedResponseError`-class `jsonDecodeError`, a parsed page without an
`items` key fails with the `MalformedResponseError`-class
`KeyError "items"` (yielding no items), and summarising an entity
without `id`, or without `snippet.title`, fails with the corresponding
`KeyError` rather than defaulting. -/
theorem malformed_response_errors
    (env : Env) (k : String) (pid : Json) (tok : Option Json) (fuel : Nat) :
    (env (.playlistItems k pid tok) = .nonJson →
      (fetch_playlist_items env k pid (fuel + 1) tok).outcome =
          .error .jsonDecodeError ∧
      (fetch_playlist_items env k pid (fuel + 1) tok).items = [] ∧
      isMalformedResponseError .jsonDecodeError = true) ∧
    (∀ fs, env (.playlistItems k pid tok) = .json (.obj fs) →
      lookupField fs "items" = none →
      (fetch_playlist_items env k pid (fuel + 1) tok).outcome =
          .error (.keyError "items") ∧
      (fetch_playlist_items env k pid (fuel + 1) tok).items = [] ∧
      isMalformedResponseError (.keyError "items") = true) ∧
    (∀ fs, lookupField fs "id" = none →
      summarise_video (.obj fs) = .error (.keyError "id") ∧
      isMalformedResponseError (.keyError "id") = true) ∧
    (∀ fs vid sf, lookupField fs "id" = some vid →
      lookupField fs "snippet" = some (.obj sf) →
      lookupField sf "title" = none →
      summarise_video (.obj fs) = .error (.keyError "title") ∧
      isMalformedResponseError (.keyError "title") = true) := by
  refine ⟨fun h => ?_, fun fs h hmiss => ?_, fun fs hid => ?_,
    fun fs vid sf hid hsnip htitle => ?_⟩
  · simp [fetch_playlist_items, h, isMalformedResponseError]
  · simp [fetch_playlist_items, h, pyIndex, hmiss, isMalformedResponseError]
  · refine ⟨?_, rfl⟩
    simp [summarise_video, pyIndex, hid]
  · refine ⟨?_, rfl⟩
    simp [summarise_video, pyTitle, pyIndex, hid, hsnip, htitle]

/-- C7 witness: a non-JSON body aborts the page fetch with
`jsonDecodeError`, and an entity without an `id` field fails to summarise
with `KeyError "id"`. -/
theorem malformed_response_errors_witness :
    (fetch_playlist_items envNonJson "k" (.str "PL") (0 + 1) none).outcome =
        .error .jsonDecodeError ∧
    summarise_video (.obj []) = .error (.keyError "id") :=
  ⟨((malformed_response_errors envNonJson "k" (.str "PL") none 0).1 rfl).1,
   ((malformed_response_errors envNonJson "k" (.str "PL") none 0).2.2.1 [] rfl).1⟩

/-- C9: the delivery callback performs no action and raises nothing (its
type is total and it returns the unit value for every error/record pair),
so per-record delivery failures are silently ignored and can never abort
the run. -/
theorem on_delivery_is_noop :
    (∀ (err : Option PyErr) (record : Json × ProducedValue),
      on_delivery err record = ()) ∧
    (∀ (outcomes : List (Option PyErr))
      (records : List (Json × ProducedValue)),
      deliver_each outcomes records = ()) :=
  ⟨fun _ _ => rfl, fun _ _ => rfl⟩

/-- C10: for every video record that summarises successfully, the inline
value built in `main` is exactly the `summarise_video` record under the
field renaming title→TITLE, views→VIEWS, likes→LIKES, comments→COMMENTS
(the summary's `video_id` has no counterpart in the value; it is the
record key's role). -/
theorem produce_value_refines_summarise
    (video : Json) (s : Summary)
    (hs : summarise_video video = .ok s) :
    produce_value video = .ok ⟨s.title, s.views, s.likes, s.comments⟩ := by
  obtain ⟨-, ht, hv, hl, hc⟩ := summarise_video_ok_fields hs
  simp [produce_value, ht, hv, hl, hc]

/-- C10 witness: on the scenario video the inline value agrees with the
renamed summary. -/
theorem produce_value_refines_summarise_witness :
    produce_value vjson = .ok ⟨.str "T", 5, 0, 0⟩ :=
  produce_value_refines_summarise vjson ⟨.str "a", .str "T", 5, 0, 0⟩ rfl

end YoutubeWatcher
